import Mathlib

/-!
Verification of the forecasting engine of DataVisionAI
(`src/utils/forecasting.py`): `forecast_linear`, `forecast_polynomial`,
`forecast_by_region`.

The embedding works over exact rationals (`ℚ`).  The spec's data-cleaning
collaborator guarantees that the time and target cells of each row are
numeric, so numbers are modelled as `ℚ`; `rmse = sqrt(mse)` is kept
symbolic (constructor `MVal.sqrtq`) so every definition stays computable
and decidable.  A pandas `DataFrame` is modelled as a column-name list
plus rows of (column, cell) association lists: this is enough to express
missing columns, per-region filtering, group-by aggregation and the
row-count checks that the three functions perform.
-/

/-- A cell of the table: a numeric value, or a string (region labels). -/
inductive Cell where
  | num : ℚ → Cell
  | str : String → Cell
deriving DecidableEq, Repr

/-- A row: an association list from column names to cells. -/
abbrev Row := List (String × Cell)

/-- A table: column names plus rows (`pandas.DataFrame`). -/
structure DataFrame where
  cols : List String
  rows : List Row
deriving DecidableEq, Repr

/-- Numeric lookup of column `c` in row `r` (`row[c]` when numeric). -/
def getNum (r : Row) (c : String) : Option ℚ :=
  match r.lookup c with
  | some (Cell.num q) => some q
  | _ => none

/-- The (time, target) pairs of the dataset.  The spec's cleaning step
guarantees numeric time/target cells; rows violating that are dropped
here, and the theorems hypothesise well-formedness where it matters. -/
def extractSeries (d : DataFrame) (tc vc : String) : List (ℚ × ℚ) :=
  d.rows.filterMap (fun r =>
    match getNum r tc, getNum r vc with
    | some t, some v => some (t, v)
    | _, _ => none)

/-- Ordered insertion that merges equal keys by adding the values:
one step of `groupby(time_col)[target_col].sum()`. -/
def insertAdd (t v : ℚ) : List (ℚ × ℚ) → List (ℚ × ℚ)
  | [] => [(t, v)]
  | (a, b) :: rest =>
    if t < a then (t, v) :: (a, b) :: rest
    else if t = a then (a, b + v) :: rest
    else (a, b) :: insertAdd t v rest

/-- `data.groupby(time_col)[target_col].sum().reset_index()` followed by
`sort_values(time_col)`: one row per distinct key, value = sum of the
values sharing that key, keys ascending. -/
def groupbySum (ps : List (ℚ × ℚ)) : List (ℚ × ℚ) :=
  ps.foldl (fun acc p => insertAdd p.1 p.2 acc) []

/-- `series.max()`; the `[]` case is never reached on well-formed data. -/
def maxOf : List ℚ → ℚ
  | [] => 0
  | a :: l => l.foldl max a

/-- Mean of a list of rationals (0 on the empty list). -/
def meanOf (l : List ℚ) : ℚ := l.sum / (l.length : ℚ)

/-- The fitted `sklearn.linear_model.LinearRegression` handle. -/
structure LinModel where
  coef : ℚ
  intercept : ℚ
deriving DecidableEq, Repr

/-- Ordinary least squares for `value = coef * period + intercept`.
`LinearRegression` centres the data and solves least squares; on the
degenerate all-equal-periods design the centred column is zero and the
minimum-norm solution gives slope 0 (branch not exercised by any claim). -/
def linFit (pts : List (ℚ × ℚ)) : LinModel :=
  let xs := pts.map Prod.fst
  let ys := pts.map Prod.snd
  let xbar := meanOf xs
  let ybar := meanOf ys
  let sxx := (xs.map (fun x => (x - xbar) ^ 2)).sum
  let sxy := (pts.map (fun p => (p.1 - xbar) * (p.2 - ybar))).sum
  let a := if sxx = 0 then 0 else sxy / sxx
  ⟨a, ybar - a * xbar⟩

/-- `model.predict` for the linear model. -/
def LinModel.predict (m : LinModel) (x : ℚ) : ℚ := m.coef * x + m.intercept

/-- A metric value: exact rational, symbolic square root (for `rmse`),
or an error message string. -/
inductive MVal where
  | q : ℚ → MVal
  | sqrtq : ℚ → MVal
  | s : String → MVal
deriving DecidableEq, Repr

/-- `sklearn.metrics.mean_squared_error` on parallel lists. -/
def mseOf (ys preds : List ℚ) : ℚ :=
  ((ys.zip preds).map (fun p => (p.1 - p.2) ^ 2)).sum / (ys.length : ℚ)

/-- Branch structure of `r2_score`: sklearn's degenerate-denominator
convention returns 1 when `SS_tot = SS_res = 0` and 0 when only
`SS_tot = 0`. -/
def r2Branch (sstot ssres : ℚ) : ℚ :=
  if sstot = 0 then (if ssres = 0 then 1 else 0) else 1 - ssres / sstot

/-- `sklearn.metrics.r2_score`: `1 - SS_res/SS_tot`. -/
def r2Of (ys preds : List ℚ) : ℚ :=
  let ybar := meanOf ys
  r2Branch ((ys.map (fun y => (y - ybar) ^ 2)).sum)
    (((ys.zip preds).map (fun p => (p.1 - p.2) ^ 2)).sum)

/-- One row of the returned forecast frame; `kind` models the source's
`type` column ("historical" or "forecast"). -/
structure FRow where
  period : ℚ
  value : ℚ
  kind : String
deriving DecidableEq, Repr

/-- `np.array(range(last_period + 1, last_period + periods + 1))`:
for integer inputs, `periods.toNat` elements starting at `lastP + 1`
(empty when `periods ≤ 0`, exactly as Python's `range`). -/
def futurePeriods (lastP : ℚ) (periods : Int) : List ℚ :=
  (List.range periods.toNat).map (fun i : ℕ => lastP + 1 + (i : ℚ))

/-- The fit-and-assemble branch of `forecast_linear` (everything after
the guard): aggregate, fit, compute metrics, extrapolate, concatenate.
This is the no-exception projection: `model.predict` raises on the empty
future-period array when `periods ≤ 0`; that exception path is modelled
by `forecast_linear_checked` below. -/
def linOut (d : DataFrame) (time_col target_col : String) (periods : Int) :
    List FRow × List (String × MVal) × Option LinModel :=
  let ts := groupbySum (extractSeries d time_col target_col)
  let model := linFit ts
  let ys := ts.map Prod.snd
  let preds := ts.map (fun p => model.predict p.1)
  let mse := mseOf ys preds
  let r2 := r2Of ys preds
  let lastP := maxOf (ts.map Prod.fst)
  let hist := ts.map (fun p => FRow.mk p.1 p.2 "historical")
  let futRows := (futurePeriods lastP periods).map
    (fun t => FRow.mk t (model.predict t) "forecast")
  (hist ++ futRows,
   [("mse", MVal.q mse), ("rmse", MVal.sqrtq mse), ("r2", MVal.q r2),
    ("coefficient", MVal.q model.coef), ("intercept", MVal.q model.intercept)],
   some model)

/-- `forecast_linear(data, time_col, target_col, periods)` from
`src/utils/forecasting.py`: returns `(forecast_df, model_metrics, model)`. -/
def forecast_linear (d : DataFrame) (time_col target_col : String) (periods : Int) :
    List FRow × List (String × MVal) × Option LinModel :=
  if time_col ∉ d.cols ∨ target_col ∉ d.cols ∨ d.rows.length < 3 then
    ([], [("error", MVal.s "Insufficient data for forecasting")], none)
  else linOut d time_col target_col periods

/-- The rows of the output frame tagged `historical`. -/
def histSeg (df : List FRow) : List FRow := df.filter (fun r => r.kind == "historical")

/-- The rows of the output frame tagged `forecast`. -/
def fcSeg (df : List FRow) : List FRow := df.filter (fun r => r.kind == "forecast")

/-- Number of distinct periods of the dataset (on its numeric rows). -/
def distinctPeriods (d : DataFrame) (tc vc : String) : Nat :=
  ((extractSeries d tc vc).map Prod.fst).dedup.length

/-- Sum of the target values of the pairs carrying period `t`. -/
def sumAt (t : ℚ) (ps : List (ℚ × ℚ)) : ℚ :=
  ((ps.filter (fun p => decide (p.1 = t))).map Prod.snd).sum

/-- The feature basis `[x, x², …, x^degree]` produced by
`PolynomialFeatures(degree)` (its bias column is dropped: inside
`LinearRegression` it centres to the zero column and receives
coefficient 0). -/
def powerBasis (degree : Nat) (x : ℚ) : List ℚ :=
  (List.range degree).map (fun j => x ^ (j + 1))

/-- Dot product of two rational lists (0 past the shorter one). -/
def dotQ : List ℚ → List ℚ → ℚ
  | a :: as2, b :: bs => a * b + dotQ as2 bs
  | _, _ => 0

/-- Picks the first row with a nonzero leading entry (partial pivoting
of an exact-arithmetic Gaussian elimination). -/
def pickPivot : List (List ℚ) → Option (List ℚ × List (List ℚ))
  | [] => none
  | r :: rs =>
    if r.headD 0 ≠ 0 then some (r, rs)
    else
      match pickPivot rs with
      | none => none
      | some (p, rest) => some (p, r :: rest)

/-- Gaussian elimination on `n` unknowns over augmented rows
`[a₁, …, aₙ, b]`; `none` when the system is singular. -/
def gsolve : Nat → List (List ℚ) → Option (List ℚ)
  | 0, _ => some []
  | n + 1, rows =>
    match pickPivot rows with
    | none => none
    | some (piv, rest) =>
      let p := piv.headD 1
      let pr := piv.tail.map (· / p)
      let reduced := rest.map (fun r =>
        List.zipWith (fun a b => a - r.headD 0 * b) r.tail pr)
      (gsolve n reduced).map (fun sol => (pr.getLastD 0 - dotQ pr.dropLast sol) :: sol)

/-- The fitted `make_pipeline(PolynomialFeatures(degree), LinearRegression())`
handle: coefficients for `x¹ … x^degree` plus intercept. -/
structure PolyModel where
  degree : Nat
  coefs : List ℚ
  intercept : ℚ
deriving DecidableEq, Repr

/-- Least-squares polynomial fit.  `LinearRegression` centres the
expanded features and the target and solves least squares, then
recovers the intercept from the means; for a design whose centred
normal matrix is invertible this is exactly the system solved here.
In the rank-deficient case sklearn's `lstsq` picks the minimum-norm
solution; that branch is modelled by the zero-coefficient fallback and
no claim inspects fitted values in that case. -/
def polyFit (degree : Nat) (pts : List (ℚ × ℚ)) : PolyModel :=
  let feats := pts.map (fun p => powerBasis degree p.1)
  let ys := pts.map Prod.snd
  let ybar := meanOf ys
  let means := (List.range degree).map (fun j => meanOf (feats.map (fun f => f.getD j 0)))
  let cfeats := feats.map (fun f => List.zipWith (· - ·) f means)
  let cys := ys.map (fun y => y - ybar)
  let aug := (List.range degree).map (fun j =>
    ((List.range degree).map
      (fun k => (cfeats.map (fun f => f.getD j 0 * f.getD k 0)).sum)) ++
    [(List.zipWith (fun f y => f.getD j 0 * y) cfeats cys).sum])
  let coefs := (gsolve degree aug).getD (List.replicate degree 0)
  ⟨degree, coefs, ybar - dotQ coefs means⟩

/-- `model.predict` for the polynomial pipeline. -/
def PolyModel.predict (m : PolyModel) (x : ℚ) : ℚ :=
  m.intercept + dotQ m.coefs (powerBasis m.degree x)

/-- The fit-and-assemble branch of `forecast_polynomial` (everything
after the guard).  As with `linOut`, the predict-on-empty exception path
for `periods ≤ 0` is modelled by `forecast_polynomial_checked` below. -/
def polyOut (d : DataFrame) (time_col target_col : String)
    (periods : Int) (degree : Nat) :
    List FRow × List (String × MVal) × Option PolyModel :=
  let ts := groupbySum (extractSeries d time_col target_col)
  let model := polyFit degree ts
  let ys := ts.map Prod.snd
  let preds := ts.map (fun p => model.predict p.1)
  let mse := mseOf ys preds
  let r2 := r2Of ys preds
  let lastP := maxOf (ts.map Prod.fst)
  let hist := ts.map (fun p => FRow.mk p.1 p.2 "historical")
  let futRows := (futurePeriods lastP periods).map
    (fun t => FRow.mk t (model.predict t) "forecast")
  (hist ++ futRows,
   [("mse", MVal.q mse), ("rmse", MVal.sqrtq mse), ("r2", MVal.q r2),
    ("degree", MVal.q degree)],
   some model)

/-- `forecast_polynomial(data, time_col, target_col, periods, degree)` from
`src/utils/forecasting.py`. -/
def forecast_polynomial (d : DataFrame) (time_col target_col : String)
    (periods : Int) (degree : Nat) :
    List FRow × List (String × MVal) × Option PolyModel :=
  if time_col ∉ d.cols ∨ target_col ∉ d.cols ∨ d.rows.length < degree + 1 then
    ([], [("error", MVal.s "Insufficient data for polynomial forecasting")], none)
  else polyOut d time_col target_col periods degree

/-- One row of the regional output frame: the single-series columns plus
the region tag added by `forecast_by_region`. -/
structure RRow where
  period : ℚ
  value : ℚ
  kind : String
  region : Cell
deriving DecidableEq, Repr

/-- `data[data[region_col] == region]` restricted to the row list. -/
def regionRows (d : DataFrame) (region_col : String) (reg : Cell) : List Row :=
  d.rows.filter (fun r => decide (r.lookup region_col = some reg))

/-- First-seen-order deduplication, as `pandas.Series.unique`. -/
def uniqueFirst (l : List Cell) : List Cell :=
  l.foldl (fun acc c => if c ∈ acc then acc else acc ++ [c]) []

/-- `data[region_col].unique()`. -/
def regionsOf (d : DataFrame) (region_col : String) : List Cell :=
  uniqueFirst (d.rows.filterMap (fun r => r.lookup region_col))

/-- Appending step of the region loop: an empty forecast frame is not
appended (`if not forecast_df.empty`); otherwise every row is tagged
with the region (`forecast_df[region_col] = region`). -/
def regionTag (reg : Cell) (fdf : List FRow) : List RRow :=
  if fdf = [] then []
  else fdf.map (fun fr => RRow.mk fr.period fr.value fr.kind reg)

/-- One iteration of the region loop of `forecast_by_region`: skip the
region when it has fewer than 3 rows, otherwise run the selected
single-series forecast on the region's rows (all columns kept) and tag
the output with the region. -/
def regionBlock (d : DataFrame) (region_col time_col target_col : String)
    (periods : Int) (method : String) (reg : Cell) : List RRow :=
  if (regionRows d region_col reg).length < 3 then []
  else
    regionTag reg (if method = "polynomial"
      then (forecast_polynomial ⟨d.cols, regionRows d region_col reg⟩
        time_col target_col periods 2).1
      else (forecast_linear ⟨d.cols, regionRows d region_col reg⟩
        time_col target_col periods).1)

/-- `forecast_by_region(data, region_col, time_col, target_col, periods,
method)` from `src/utils/forecasting.py`. -/
def forecast_by_region (d : DataFrame) (region_col time_col target_col : String)
    (periods : Int) (method : String) : List RRow :=
  if region_col ∉ d.cols ∨ time_col ∉ d.cols ∨ target_col ∉ d.cols then []
  else
    ((regionsOf d region_col).map
      (regionBlock d region_col time_col target_col periods method)).flatten

/-- The message of the `ValueError` sklearn's `check_array(...,
ensure_min_samples=1)` raises on a 0-sample input. -/
def zeroSampleError : String := "ValueError: Found array with 0 sample(s)"

/-- `forecast_linear` with the exception path of
`model.predict(future_periods)` (line 49) modelled: when the guard passes
and `periods ≤ 0`, `future_periods` is an empty `(0,1)` array and sklearn's
`check_array` (`ensure_min_samples=1`) raises `ValueError` instead of
returning; the successful path returns `linOut`. -/
def forecast_linear_checked (d : DataFrame) (time_col target_col : String) (periods : Int) :
    Except String (List FRow × List (String × MVal) × Option LinModel) :=
  if time_col ∉ d.cols ∨ target_col ∉ d.cols ∨ d.rows.length < 3 then
    Except.ok ([], [("error", MVal.s "Insufficient data for forecasting")], none)
  else if futurePeriods
      (maxOf ((groupbySum (extractSeries d time_col target_col)).map Prod.fst)) periods = []
    then Except.error zeroSampleError
  else Except.ok (linOut d time_col target_col periods)

/-- `forecast_polynomial` with the exception path of
`model.predict(future_periods)` (line 119) modelled, exactly as in
`forecast_linear_checked` (`PolynomialFeatures.transform`/`predict` raise
the same `ValueError` on a 0-sample input). -/
def forecast_polynomial_checked (d : DataFrame) (time_col target_col : String)
    (periods : Int) (degree : Nat) :
    Except String (List FRow × List (String × MVal) × Option PolyModel) :=
  if time_col ∉ d.cols ∨ target_col ∉ d.cols ∨ d.rows.length < degree + 1 then
    Except.ok ([], [("error", MVal.s "Insufficient data for polynomial forecasting")], none)
  else if futurePeriods
      (maxOf ((groupbySum (extractSeries d time_col target_col)).map Prod.fst)) periods = []
    then Except.error zeroSampleError
  else Except.ok (polyOut d time_col target_col periods degree)

/-! ### Concrete datasets used as test fixtures -/

/-- The exact series `{(2010,100),(2011,200),(2012,300)}` of property P6. -/
def perfectSeries : DataFrame :=
  ⟨["year", "sales"],
   [[("year", Cell.num 2010), ("sales", Cell.num 100)],
    [("year", Cell.num 2011), ("sales", Cell.num 200)],
    [("year", Cell.num 2012), ("sales", Cell.num 300)]]⟩

/-- Exactly 2 distinct periods spread over 4 rows. -/
def twoPeriodsFourRows : DataFrame :=
  ⟨["year", "sales"],
   [[("year", Cell.num 2010), ("sales", Cell.num 1)],
    [("year", Cell.num 2010), ("sales", Cell.num 2)],
    [("year", Cell.num 2011), ("sales", Cell.num 3)],
    [("year", Cell.num 2011), ("sales", Cell.num 4)]]⟩

/-- Exactly 2 distinct periods spread over 3 rows. -/
def twoPeriodsThreeRows : DataFrame :=
  ⟨["year", "sales"],
   [[("year", Cell.num 2010), ("sales", Cell.num 1)],
    [("year", Cell.num 2010), ("sales", Cell.num 2)],
    [("year", Cell.num 2011), ("sales", Cell.num 3)]]⟩

/-- Rows 30 and 70 sharing period 2010, plus two further years. -/
def duplicatePeriodRows : DataFrame :=
  ⟨["year", "sales"],
   [[("year", Cell.num 2010), ("sales", Cell.num 30)],
    [("year", Cell.num 2010), ("sales", Cell.num 70)],
    [("year", Cell.num 2011), ("sales", Cell.num 5)],
    [("year", Cell.num 2012), ("sales", Cell.num 7)]]⟩

/-- A 5-year region ("North") and a 2-year region ("South"). -/
def twoRegionData : DataFrame :=
  ⟨["region", "year", "sales"],
   [[("region", Cell.str "North"), ("year", Cell.num 2010), ("sales", Cell.num 10)],
    [("region", Cell.str "North"), ("year", Cell.num 2011), ("sales", Cell.num 20)],
    [("region", Cell.str "North"), ("year", Cell.num 2012), ("sales", Cell.num 30)],
    [("region", Cell.str "North"), ("year", Cell.num 2013), ("sales", Cell.num 40)],
    [("region", Cell.str "North"), ("year", Cell.num 2014), ("sales", Cell.num 50)],
    [("region", Cell.str "South"), ("year", Cell.num 2010), ("sales", Cell.num 5)],
    [("region", Cell.str "South"), ("year", Cell.num 2011), ("sales", Cell.num 6)]]⟩

/-- A frame that lacks the `sales` column. -/
def missingColData : DataFrame :=
  ⟨["year"], [[("year", Cell.num 2010)], [("year", Cell.num 2011)],
    [("year", Cell.num 2012)]]⟩

/-! ### Lemmas about the aggregation step (`groupbySum`) -/

theorem sumAt_nil (x : ℚ) : sumAt x [] = 0 := rfl

theorem sumAt_cons (x a b : ℚ) (l : List (ℚ × ℚ)) :
    sumAt x ((a, b) :: l) = (if x = a then b else 0) + sumAt x l := by
  by_cases h : a = x
  · subst h
    simp [sumAt, List.filter_cons]
  · simp [sumAt, List.filter_cons, h, Ne.symm h]

theorem insertAdd_cons_lt (t v a b : ℚ) (l : List (ℚ × ℚ)) (h : t < a) :
    insertAdd t v ((a, b) :: l) = (t, v) :: (a, b) :: l := by
  simp [insertAdd, h]

theorem insertAdd_cons_eq (t v b : ℚ) (l : List (ℚ × ℚ)) :
    insertAdd t v ((t, b) :: l) = (t, b + v) :: l := by
  simp [insertAdd]

theorem insertAdd_cons_gt (t v a b : ℚ) (l : List (ℚ × ℚ)) (h : a < t) :
    insertAdd t v ((a, b) :: l) = (a, b) :: insertAdd t v l := by
  have h1 : ¬t < a := not_lt.mpr h.le
  have h2 : t ≠ a := ne_of_gt h
  simp [insertAdd, h1, h2]

theorem insertAdd_ne_nil (t v : ℚ) (l : List (ℚ × ℚ)) : insertAdd t v l ≠ [] := by
  cases l with
  | nil => simp [insertAdd]
  | cons p rest =>
    obtain ⟨a, b⟩ := p
    rcases lt_trichotomy t a with h1 | h1 | h1
    · rw [insertAdd_cons_lt t v a b rest h1]
      simp
    · subst h1
      rw [insertAdd_cons_eq t v b rest]
      simp
    · rw [insertAdd_cons_gt t v a b rest h1]
      simp

theorem mem_keys_insertAdd (t v x : ℚ) (l : List (ℚ × ℚ)) :
    x ∈ (insertAdd t v l).map Prod.fst ↔ x = t ∨ x ∈ l.map Prod.fst := by
  induction l with
  | nil => simp [insertAdd]
  | cons p rest ih =>
    obtain ⟨a, b⟩ := p
    rcases lt_trichotomy t a with h1 | h1 | h1
    · rw [insertAdd_cons_lt t v a b rest h1]
      simp only [List.map_cons, List.mem_cons]
      try tauto
    · subst h1
      rw [insertAdd_cons_eq t v b rest]
      simp only [List.map_cons, List.mem_cons]
      try tauto
    · rw [insertAdd_cons_gt t v a b rest h1]
      simp only [List.map_cons, List.mem_cons, ih]
      tauto

theorem sumAt_insertAdd (t v x : ℚ) (l : List (ℚ × ℚ)) :
    sumAt x (insertAdd t v l) = (if x = t then v else 0) + sumAt x l := by
  induction l with
  | nil => simp [insertAdd, sumAt_cons, sumAt_nil]
  | cons p rest ih =>
    obtain ⟨a, b⟩ := p
    rcases lt_trichotomy t a with h1 | h1 | h1
    · rw [insertAdd_cons_lt t v a b rest h1, sumAt_cons, sumAt_cons]
    · subst h1
      rw [insertAdd_cons_eq t v b rest, sumAt_cons, sumAt_cons]
      split_ifs <;> ring
    · rw [insertAdd_cons_gt t v a b rest h1, sumAt_cons, sumAt_cons, ih]
      ring

theorem keys_sorted_insertAdd (t v : ℚ) (l : List (ℚ × ℚ))
    (h : (l.map Prod.fst).Pairwise (· < ·)) :
    ((insertAdd t v l).map Prod.fst).Pairwise (· < ·) := by
  induction l with
  | nil => simp [insertAdd]
  | cons p rest ih =>
    obtain ⟨a, b⟩ := p
    simp only [List.map_cons, List.pairwise_cons] at h
    rcases lt_trichotomy t a with h1 | h1 | h1
    · rw [insertAdd_cons_lt t v a b rest h1]
      simp only [List.map_cons, List.pairwise_cons]
      refine ⟨?_, h.1, h.2⟩
      intro x hx
      rcases List.mem_cons.mp hx with rfl | hx
      · exact h1
      · exact lt_trans h1 (h.1 x hx)
    · subst h1
      rw [insertAdd_cons_eq t v b rest]
      simp only [List.map_cons, List.pairwise_cons]
      exact h
    · rw [insertAdd_cons_gt t v a b rest h1]
      simp only [List.map_cons, List.pairwise_cons]
      refine ⟨?_, ih h.2⟩
      intro x hx
      rcases (mem_keys_insertAdd t v x rest).mp hx with rfl | hx
      · exact h1
      · exact h.1 x hx

theorem groupbyStep_ne_nil (ps : List (ℚ × ℚ)) (acc : List (ℚ × ℚ)) (h : acc ≠ []) :
    ps.foldl (fun acc p => insertAdd p.1 p.2 acc) acc ≠ [] := by
  induction ps generalizing acc with
  | nil => exact h
  | cons p rest ih => exact ih _ (insertAdd_ne_nil p.1 p.2 acc)

theorem groupbySum_ne_nil (ps : List (ℚ × ℚ)) (h : ps ≠ []) : groupbySum ps ≠ [] := by
  cases ps with
  | nil => exact absurd rfl h
  | cons p rest =>
    simp only [groupbySum, List.foldl_cons]
    exact groupbyStep_ne_nil rest _ (insertAdd_ne_nil p.1 p.2 [])

theorem mem_keys_groupbyStep (x : ℚ) (ps acc : List (ℚ × ℚ)) :
    x ∈ ((ps.foldl (fun acc p => insertAdd p.1 p.2 acc) acc).map Prod.fst) ↔
      x ∈ acc.map Prod.fst ∨ x ∈ ps.map Prod.fst := by
  induction ps generalizing acc with
  | nil => simp
  | cons p rest ih =>
    simp only [List.foldl_cons, ih, mem_keys_insertAdd, List.map_cons, List.mem_cons]
    tauto

theorem sumAt_groupbyStep (x : ℚ) (ps acc : List (ℚ × ℚ)) :
    sumAt x (ps.foldl (fun acc p => insertAdd p.1 p.2 acc) acc) =
      sumAt x acc + sumAt x ps := by
  induction ps generalizing acc with
  | nil => simp [sumAt_nil]
  | cons p rest ih =>
    obtain ⟨a, b⟩ := p
    simp only [List.foldl_cons, ih, sumAt_insertAdd, sumAt_cons]
    ring

theorem keys_sorted_groupbyStep (ps acc : List (ℚ × ℚ))
    (h : (acc.map Prod.fst).Pairwise (· < ·)) :
    (((ps.foldl (fun acc p => insertAdd p.1 p.2 acc) acc)).map Prod.fst).Pairwise (· < ·) := by
  induction ps generalizing acc with
  | nil => exact h
  | cons p rest ih => exact ih _ (keys_sorted_insertAdd p.1 p.2 acc h)

theorem groupbySum_keys_sorted (ps : List (ℚ × ℚ)) :
    ((groupbySum ps).map Prod.fst).Pairwise (· < ·) :=
  keys_sorted_groupbyStep ps [] (by simp)

theorem mem_keys_groupbySum (x : ℚ) (ps : List (ℚ × ℚ)) :
    x ∈ (groupbySum ps).map Prod.fst ↔ x ∈ ps.map Prod.fst := by
  simpa [groupbySum] using mem_keys_groupbyStep x ps []

theorem sumAt_groupbySum (x : ℚ) (ps : List (ℚ × ℚ)) :
    sumAt x (groupbySum ps) = sumAt x ps := by
  simpa [groupbySum, sumAt_nil] using sumAt_groupbyStep x ps []

theorem sumAt_eq_zero_of_not_mem (x : ℚ) (l : List (ℚ × ℚ)) (h : x ∉ l.map Prod.fst) :
    sumAt x l = 0 := by
  induction l with
  | nil => rfl
  | cons p rest ih =>
    obtain ⟨a, b⟩ := p
    simp only [List.map_cons, List.mem_cons, not_or] at h
    rw [sumAt_cons, if_neg h.1, ih h.2, add_zero]

theorem sumAt_eq_of_mem_sorted (t v : ℚ) (l : List (ℚ × ℚ))
    (hs : (l.map Prod.fst).Pairwise (· < ·)) (hm : (t, v) ∈ l) : sumAt t l = v := by
  induction l with
  | nil => exact absurd hm (List.not_mem_nil _)
  | cons p rest ih =>
    obtain ⟨a, b⟩ := p
    simp only [List.map_cons, List.pairwise_cons] at hs
    rcases List.mem_cons.mp hm with hm | hm
    · have ht : t = a := congrArg Prod.fst hm
      have hv : v = b := congrArg Prod.snd hm
      subst ht
      subst hv
      have hnot : t ∉ rest.map Prod.fst := fun hmem => absurd (hs.1 t hmem) (lt_irrefl t)
      rw [sumAt_cons, if_pos rfl, sumAt_eq_zero_of_not_mem t rest hnot, add_zero]
    · have htm : t ∈ rest.map Prod.fst := List.mem_map.mpr ⟨(t, v), hm, rfl⟩
      have hta : t ≠ a := by
        intro e
        have hat : a < t := hs.1 t htm
        rw [e] at hat
        exact absurd hat (lt_irrefl a)
      rw [sumAt_cons, if_neg hta, ih hs.2 hm, zero_add]

theorem val_eq_sumAt_of_mem_groupbySum (t v : ℚ) (ps : List (ℚ × ℚ))
    (h : (t, v) ∈ groupbySum ps) : v = sumAt t ps := by
  have := sumAt_eq_of_mem_sorted t v (groupbySum ps) (groupbySum_keys_sorted ps) h
  rw [sumAt_groupbySum] at this
  exact this.symm

/-! ### Lemmas about output assembly and the guards -/

theorem filter_kind_of_all (l : List FRow) (s : String) (h : ∀ r ∈ l, r.kind = s) :
    l.filter (fun r => r.kind == s) = l := by
  induction l with
  | nil => rfl
  | cons r rest ih =>
    have hr : (r.kind == s) = true := beq_iff_eq.mpr (h r (List.mem_cons_self r rest))
    rw [List.filter_cons, if_pos hr, ih (fun x hx => h x (List.mem_cons_of_mem r hx))]

theorem filter_kind_of_none (l : List FRow) (s : String) (h : ∀ r ∈ l, r.kind ≠ s) :
    l.filter (fun r => r.kind == s) = [] := by
  induction l with
  | nil => rfl
  | cons r rest ih =>
    have hr : ¬((r.kind == s) = true) := by
      simp only [beq_iff_eq]
      exact h r (List.mem_cons_self r rest)
    rw [List.filter_cons, if_neg hr, ih (fun x hx => h x (List.mem_cons_of_mem r hx))]

theorem histSeg_linOut (d : DataFrame) (tc vc : String) (p : Int) :
    histSeg (linOut d tc vc p).1 =
      (groupbySum (extractSeries d tc vc)).map (fun q => FRow.mk q.1 q.2 "historical") := by
  have hdf : (linOut d tc vc p).1 =
      (groupbySum (extractSeries d tc vc)).map (fun q => FRow.mk q.1 q.2 "historical") ++
      (futurePeriods (maxOf ((groupbySum (extractSeries d tc vc)).map Prod.fst)) p).map
        (fun t => FRow.mk t ((linFit (groupbySum (extractSeries d tc vc))).predict t)
          "forecast") := rfl
  rw [histSeg, hdf, List.filter_append]
  rw [filter_kind_of_all _ _ (by
    intro r hr
    obtain ⟨q, _, rfl⟩ := List.mem_map.mp hr
    rfl)]
  rw [filter_kind_of_none _ _ (by
    intro r hr
    obtain ⟨q, _, rfl⟩ := List.mem_map.mp hr
    simp)]
  rw [List.append_nil]

theorem fcSeg_linOut (d : DataFrame) (tc vc : String) (p : Int) :
    fcSeg (linOut d tc vc p).1 =
      (futurePeriods (maxOf ((groupbySum (extractSeries d tc vc)).map Prod.fst)) p).map
        (fun t => FRow.mk t ((linFit (groupbySum (extractSeries d tc vc))).predict t)
          "forecast") := by
  have hdf : (linOut d tc vc p).1 =
      (groupbySum (extractSeries d tc vc)).map (fun q => FRow.mk q.1 q.2 "historical") ++
      (futurePeriods (maxOf ((groupbySum (extractSeries d tc vc)).map Prod.fst)) p).map
        (fun t => FRow.mk t ((linFit (groupbySum (extractSeries d tc vc))).predict t)
          "forecast") := rfl
  rw [fcSeg, hdf, List.filter_append]
  rw [filter_kind_of_none _ _ (by
    intro r hr
    obtain ⟨q, _, rfl⟩ := List.mem_map.mp hr
    simp)]
  rw [filter_kind_of_all _ _ (by
    intro r hr
    obtain ⟨q, _, rfl⟩ := List.mem_map.mp hr
    rfl)]
  rw [List.nil_append]

theorem histSeg_polyOut (d : DataFrame) (tc vc : String) (p : Int) (degree : Nat) :
    histSeg (polyOut d tc vc p degree).1 =
      (groupbySum (extractSeries d tc vc)).map (fun q => FRow.mk q.1 q.2 "historical") := by
  have hdf : (polyOut d tc vc p degree).1 =
      (groupbySum (extractSeries d tc vc)).map (fun q => FRow.mk q.1 q.2 "historical") ++
      (futurePeriods (maxOf ((groupbySum (extractSeries d tc vc)).map Prod.fst)) p).map
        (fun t => FRow.mk t ((polyFit degree (groupbySum (extractSeries d tc vc))).predict t)
          "forecast") := rfl
  rw [histSeg, hdf, List.filter_append]
  rw [filter_kind_of_all _ _ (by
    intro r hr
    obtain ⟨q, _, rfl⟩ := List.mem_map.mp hr
    rfl)]
  rw [filter_kind_of_none _ _ (by
    intro r hr
    obtain ⟨q, _, rfl⟩ := List.mem_map.mp hr
    simp)]
  rw [List.append_nil]

theorem fcSeg_polyOut (d : DataFrame) (tc vc : String) (p : Int) (degree : Nat) :
    fcSeg (polyOut d tc vc p degree).1 =
      (futurePeriods (maxOf ((groupbySum (extractSeries d tc vc)).map Prod.fst)) p).map
        (fun t => FRow.mk t ((polyFit degree (groupbySum (extractSeries d tc vc))).predict t)
          "forecast") := by
  have hdf : (polyOut d tc vc p degree).1 =
      (groupbySum (extractSeries d tc vc)).map (fun q => FRow.mk q.1 q.2 "historical") ++
      (futurePeriods (maxOf ((groupbySum (extractSeries d tc vc)).map Prod.fst)) p).map
        (fun t => FRow.mk t ((polyFit degree (groupbySum (extractSeries d tc vc))).predict t)
          "forecast") := rfl
  rw [fcSeg, hdf, List.filter_append]
  rw [filter_kind_of_none _ _ (by
    intro r hr
    obtain ⟨q, _, rfl⟩ := List.mem_map.mp hr
    simp)]
  rw [filter_kind_of_all _ _ (by
    intro r hr
    obtain ⟨q, _, rfl⟩ := List.mem_map.mp hr
    rfl)]
  rw [List.nil_append]

theorem length_futurePeriods (c : ℚ) (p : Int) : (futurePeriods c p).length = p.toNat := by
  rw [futurePeriods, List.length_map, List.length_range]

theorem futurePeriods_eq_nil_of_nonpos (c : ℚ) (p : Int) (hp : p ≤ 0) :
    futurePeriods c p = [] := by
  have h0 : p.toNat = 0 := by omega
  rw [futurePeriods, h0]
  rfl

theorem futurePeriods_ne_nil (c : ℚ) (p : Int) (hp : 1 ≤ p) : futurePeriods c p ≠ [] := by
  intro h
  have hl := length_futurePeriods c p
  rw [h] at hl
  simp only [List.length_nil] at hl
  omega

theorem pairwise_futurePeriods (c : ℚ) (p : Int) :
    (futurePeriods c p).Pairwise (· < ·) := by
  rw [futurePeriods, List.pairwise_map]
  refine (List.pairwise_lt_range p.toNat).imp ?_
  intro a b hab
  have h2 : (a : ℚ) < (b : ℚ) := by exact_mod_cast hab
  linarith

theorem forecast_linear_insufficient (d : DataFrame) (tc vc : String) (p : Int)
    (h : tc ∉ d.cols ∨ vc ∉ d.cols ∨ d.rows.length < 3) :
    forecast_linear d tc vc p =
      ([], [("error", MVal.s "Insufficient data for forecasting")], none) := by
  rw [forecast_linear, if_pos h]

theorem forecast_linear_fit (d : DataFrame) (tc vc : String) (p : Int)
    (h1 : tc ∈ d.cols) (h2 : vc ∈ d.cols) (h3 : 3 ≤ d.rows.length) :
    forecast_linear d tc vc p = linOut d tc vc p := by
  rw [forecast_linear, if_neg]
  push_neg
  exact ⟨h1, h2, h3⟩

theorem forecast_polynomial_insufficient (d : DataFrame) (tc vc : String) (p : Int)
    (degree : Nat) (h : tc ∉ d.cols ∨ vc ∉ d.cols ∨ d.rows.length < degree + 1) :
    forecast_polynomial d tc vc p degree =
      ([], [("error", MVal.s "Insufficient data for polynomial forecasting")], none) := by
  rw [forecast_polynomial, if_pos h]

theorem forecast_polynomial_fit (d : DataFrame) (tc vc : String) (p : Int) (degree : Nat)
    (h1 : tc ∈ d.cols) (h2 : vc ∈ d.cols) (h3 : degree + 1 ≤ d.rows.length) :
    forecast_polynomial d tc vc p degree = polyOut d tc vc p degree := by
  rw [forecast_polynomial, if_neg]
  push_neg
  exact ⟨h1, h2, h3⟩

theorem forecast_by_region_missing (d : DataFrame) (rc tc vc : String) (p : Int)
    (m : String) (h : rc ∉ d.cols ∨ tc ∉ d.cols ∨ vc ∉ d.cols) :
    forecast_by_region d rc tc vc p m = [] := by
  rw [forecast_by_region, if_pos h]

theorem forecast_by_region_present (d : DataFrame) (rc tc vc : String) (p : Int)
    (m : String) (h1 : rc ∈ d.cols) (h2 : tc ∈ d.cols) (h3 : vc ∈ d.cols) :
    forecast_by_region d rc tc vc p m =
      ((regionsOf d rc).map (regionBlock d rc tc vc p m)).flatten := by
  rw [forecast_by_region, if_neg]
  push_neg
  exact ⟨h1, h2, h3⟩

theorem forecast_linear_checked_raises (d : DataFrame) (tc vc : String) (p : Int)
    (h1 : tc ∈ d.cols) (h2 : vc ∈ d.cols) (h3 : 3 ≤ d.rows.length) (hp : p ≤ 0) :
    forecast_linear_checked d tc vc p = Except.error zeroSampleError := by
  have hg : ¬(tc ∉ d.cols ∨ vc ∉ d.cols ∨ d.rows.length < 3) := by
    push_neg
    exact ⟨h1, h2, h3⟩
  rw [forecast_linear_checked, if_neg hg,
    if_pos (futurePeriods_eq_nil_of_nonpos _ p hp)]

theorem forecast_linear_checked_ok (d : DataFrame) (tc vc : String) (p : Int)
    (h1 : tc ∈ d.cols) (h2 : vc ∈ d.cols) (h3 : 3 ≤ d.rows.length) (hp : 1 ≤ p) :
    forecast_linear_checked d tc vc p = Except.ok (linOut d tc vc p) := by
  have hg : ¬(tc ∉ d.cols ∨ vc ∉ d.cols ∨ d.rows.length < 3) := by
    push_neg
    exact ⟨h1, h2, h3⟩
  rw [forecast_linear_checked, if_neg hg, if_neg (futurePeriods_ne_nil _ p hp)]

theorem forecast_polynomial_checked_raises (d : DataFrame) (tc vc : String) (p : Int)
    (degree : Nat) (h1 : tc ∈ d.cols) (h2 : vc ∈ d.cols)
    (h3 : degree + 1 ≤ d.rows.length) (hp : p ≤ 0) :
    forecast_polynomial_checked d tc vc p degree = Except.error zeroSampleError := by
  have hg : ¬(tc ∉ d.cols ∨ vc ∉ d.cols ∨ d.rows.length < degree + 1) := by
    push_neg
    exact ⟨h1, h2, h3⟩
  rw [forecast_polynomial_checked, if_neg hg,
    if_pos (futurePeriods_eq_nil_of_nonpos _ p hp)]

theorem forecast_polynomial_checked_ok (d : DataFrame) (tc vc : String) (p : Int)
    (degree : Nat) (h1 : tc ∈ d.cols) (h2 : vc ∈ d.cols)
    (h3 : degree + 1 ≤ d.rows.length) (hp : 1 ≤ p) :
    forecast_polynomial_checked d tc vc p degree =
      Except.ok (polyOut d tc vc p degree) := by
  have hg : ¬(tc ∉ d.cols ∨ vc ∉ d.cols ∨ d.rows.length < degree + 1) := by
    push_neg
    exact ⟨h1, h2, h3⟩
  rw [forecast_polynomial_checked, if_neg hg, if_neg (futurePeriods_ne_nil _ p hp)]

/-! ### Lemmas about the region loop -/

theorem mem_uniqueFold (l : List Cell) (acc : List Cell) (x : Cell) :
    x ∈ l.foldl (fun acc c => if c ∈ acc then acc else acc ++ [c]) acc ↔
      x ∈ acc ∨ x ∈ l := by
  induction l generalizing acc with
  | nil => simp
  | cons c rest ih =>
    simp only [List.foldl_cons]
    by_cases hc : c ∈ acc
    · rw [if_pos hc, ih]
      simp only [List.mem_cons]
      constructor
      · rintro (h | h)
        · exact Or.inl h
        · exact Or.inr (Or.inr h)
      · rintro (h | rfl | h)
        · exact Or.inl h
        · exact Or.inl hc
        · exact Or.inr h
    · rw [if_neg hc, ih]
      simp only [List.mem_append, List.mem_singleton, List.mem_cons]
      tauto

theorem nodup_uniqueFold (l : List Cell) (acc : List Cell) (h : acc.Nodup) :
    (l.foldl (fun acc c => if c ∈ acc then acc else acc ++ [c]) acc).Nodup := by
  induction l generalizing acc with
  | nil => exact h
  | cons c rest ih =>
    simp only [List.foldl_cons]
    by_cases hc : c ∈ acc
    · rw [if_pos hc]
      exact ih acc h
    · rw [if_neg hc]
      refine ih _ (List.nodup_append.mpr ⟨h, List.nodup_singleton c, ?_⟩)
      exact List.disjoint_singleton.mpr hc

theorem mem_uniqueFirst (x : Cell) (l : List Cell) : x ∈ uniqueFirst l ↔ x ∈ l := by
  simpa [uniqueFirst] using mem_uniqueFold l [] x

theorem nodup_uniqueFirst (l : List Cell) : (uniqueFirst l).Nodup :=
  nodup_uniqueFold l [] List.nodup_nil

theorem regionBlock_skip (d : DataFrame) (rc tc vc : String) (p : Int) (m : String)
    (reg : Cell) (h : (regionRows d rc reg).length < 3) :
    regionBlock d rc tc vc p m reg = [] := by
  rw [regionBlock, if_pos h]

theorem region_of_mem_regionTag (reg : Cell) (fdf : List FRow) (row : RRow)
    (h : row ∈ regionTag reg fdf) : row.region = reg := by
  rw [regionTag] at h
  split at h
  · exact absurd h (List.not_mem_nil row)
  · obtain ⟨fr, _, rfl⟩ := List.mem_map.mp h
    rfl

theorem mem_regionBlock_inv (d : DataFrame) (rc tc vc : String) (p : Int) (m : String)
    (reg : Cell) (row : RRow) (h : row ∈ regionBlock d rc tc vc p m reg) :
    row.region = reg ∧ 3 ≤ (regionRows d rc reg).length := by
  rw [regionBlock] at h
  split at h
  · exact absurd h (List.not_mem_nil row)
  · next hlen => exact ⟨region_of_mem_regionTag reg _ row h, not_lt.mp hlen⟩

theorem mem_regionsOf (d : DataFrame) (rc : String) (r : Cell)
    (h : regionRows d rc r ≠ []) : r ∈ regionsOf d rc := by
  obtain ⟨row, hrow⟩ := List.exists_mem_of_ne_nil _ h
  have hmem := List.mem_filter.mp hrow
  rw [regionsOf, mem_uniqueFirst]
  refine List.mem_filterMap.mpr ⟨row, hmem.1, ?_⟩
  exact of_decide_eq_true hmem.2

theorem mem_forecast_by_region_inv (d : DataFrame) (rc tc vc : String) (p : Int)
    (m : String) (row : RRow) (h : row ∈ forecast_by_region d rc tc vc p m) :
    3 ≤ (regionRows d rc row.region).length := by
  rw [forecast_by_region] at h
  split at h
  · exact absurd h (List.not_mem_nil row)
  · obtain ⟨l, hl, hrow⟩ := List.mem_flatten.mp h
    obtain ⟨reg, _, rfl⟩ := List.mem_map.mp hl
    obtain ⟨hreg, hlen⟩ := mem_regionBlock_inv d rc tc vc p m reg row hrow
    rw [hreg]
    exact hlen

theorem filter_region_flatten (regions : List Cell) (g : Cell → List RRow) (r : Cell)
    (hg : ∀ reg : Cell, ∀ row ∈ g reg, row.region = reg)
    (hnd : regions.Nodup) (hr : r ∈ regions) :
    ((regions.map g).flatten).filter (fun row => decide (row.region = r)) = g r := by
  induction regions with
  | nil => exact absurd hr (List.not_mem_nil r)
  | cons c rest ih =>
    rw [List.map_cons, List.flatten_cons, List.filter_append]
    have hnd' := List.nodup_cons.mp hnd
    rcases List.mem_cons.mp hr with rfl | hmem
    · have h1 : (g r).filter (fun row => decide (row.region = r)) = g r :=
        List.filter_eq_self.mpr (fun row hrow => decide_eq_true (hg r row hrow))
      have h2 : ((rest.map g).flatten).filter (fun row => decide (row.region = r)) = [] := by
        refine List.filter_eq_nil_iff.mpr ?_
        intro row hrow
        obtain ⟨l, hl, hrowl⟩ := List.mem_flatten.mp hrow
        obtain ⟨reg, hregmem, rfl⟩ := List.mem_map.mp hl
        have : row.region = reg := hg reg row hrowl
        simp only [decide_eq_true_eq, this]
        rintro rfl
        exact hnd'.1 hregmem
      rw [h1, h2, List.append_nil]
    · have hcr : c ≠ r := by
        rintro rfl
        exact hnd'.1 hmem
      have h1 : (g c).filter (fun row => decide (row.region = r)) = [] := by
        refine List.filter_eq_nil_iff.mpr ?_
        intro row hrow
        have : row.region = c := hg c row hrow
        simp only [decide_eq_true_eq, this]
        exact hcr
      rw [h1, List.nil_append, ih hnd'.2 hmem]

theorem region_of_mem_regionBlock (d : DataFrame) (rc tc vc : String) (p : Int)
    (m : String) (reg : Cell) (row : RRow) (h : row ∈ regionBlock d rc tc vc p m reg) :
    row.region = reg :=
  (mem_regionBlock_inv d rc tc vc p m reg row h).1

theorem map_period_histRows (ts : List (ℚ × ℚ)) :
    (ts.map (fun q => FRow.mk q.1 q.2 "historical")).map (fun r => r.period) =
      ts.map Prod.fst := by
  rw [List.map_map]
  rfl

theorem map_period_futRows (f : ℚ → ℚ) (l : List ℚ) :
    ((l.map (fun t => FRow.mk t (f t) "forecast")).map (fun r => r.period)) = l := by
  rw [List.map_map]
  show List.map (fun t => t) l = l
  exact List.map_id' l

theorem lookup_error_linOut (d : DataFrame) (tc vc : String) (p : Int) :
    ((linOut d tc vc p).2.1).lookup "error" = none := by
  simp only [linOut]
  simp +decide [List.lookup]

theorem lookup_error_polyOut (d : DataFrame) (tc vc : String) (p : Int) (degree : Nat) :
    ((polyOut d tc vc p degree).2.1).lookup "error" = none := by
  simp only [polyOut]
  simp +decide [List.lookup]

/-- The region loop dispatches on `method == 'polynomial'` exactly; any
other method string selects the linear branch. -/
theorem regionBlock_fallback (d : DataFrame) (rc tc vc : String) (p : Int) (m : String)
    (hm : m ≠ "polynomial") (reg : Cell) :
    regionBlock d rc tc vc p m reg = regionBlock d rc tc vc p "linear" reg := by
  rw [regionBlock, regionBlock, if_neg hm,
    if_neg (by decide : ¬("linear" : String) = "polynomial")]

/-! ### The claims -/

/-- C1 (counterexample): a dataset with exactly 2 distinct periods carried by
4 rows passes the gate of `forecast_linear` (which counts rows, not distinct
periods) and yields a non-empty forecast, non-error metrics and a model —
contradicting the claim that any 2-distinct-period dataset gets the
empty/error result. -/
theorem C1_counterexample :
    distinctPeriods twoPeriodsFourRows "year" "sales" = 2 ∧
    fcSeg (forecast_linear twoPeriodsFourRows "year" "sales" 5).1 ≠ [] ∧
    ((forecast_linear twoPeriodsFourRows "year" "sales" 5).2.1).lookup "error" = none ∧
    (forecast_linear twoPeriodsFourRows "year" "sales" 5).2.2 ≠ none := by
  have hfit : forecast_linear twoPeriodsFourRows "year" "sales" 5 =
      linOut twoPeriodsFourRows "year" "sales" 5 :=
    forecast_linear_fit _ _ _ _ (by decide) (by decide) (by decide)
  refine ⟨?_, ?_, ?_, ?_⟩
  · norm_num +decide [distinctPeriods, extractSeries, twoPeriodsFourRows, getNum,
      List.lookup, List.dedup_cons_of_mem, List.dedup_cons_of_not_mem]
  · rw [hfit, fcSeg_linOut]
    simp only [ne_eq, List.map_eq_nil_iff]
    exact futurePeriods_ne_nil _ 5 (by decide)
  · rw [hfit]
    exact lookup_error_linOut _ _ _ _
  · rw [hfit]
    simp [linOut]

/-- C1 (amended): the minimum-data gate of `forecast_linear` counts rows, not
distinct periods: with fewer than 3 rows it returns the empty frame,
error-tagged metrics and no model; with at least 3 rows and a positive
horizon it returns a non-empty forecast (even when only 2 periods are
distinct); in particular 3 distinct periods still guarantee a non-empty
forecast. -/
theorem C1_amended_row_gate (d : DataFrame) (tc vc : String) (p : Int)
    (h1 : tc ∈ d.cols) (h2 : vc ∈ d.cols) :
    (d.rows.length < 3 → forecast_linear d tc vc p =
      ([], [("error", MVal.s "Insufficient data for forecasting")], none)) ∧
    (3 ≤ d.rows.length → 1 ≤ p → fcSeg (forecast_linear d tc vc p).1 ≠ []) ∧
    (distinctPeriods d tc vc = 3 → 1 ≤ p → fcSeg (forecast_linear d tc vc p).1 ≠ []) := by
  have hfc : ∀ (h3 : 3 ≤ d.rows.length), 1 ≤ p → fcSeg (forecast_linear d tc vc p).1 ≠ [] := by
    intro h3 hp
    rw [forecast_linear_fit d tc vc p h1 h2 h3, fcSeg_linOut]
    simp only [ne_eq, List.map_eq_nil_iff]
    exact futurePeriods_ne_nil _ p hp
  refine ⟨fun hlt => forecast_linear_insufficient d tc vc p (Or.inr (Or.inr hlt)), hfc, ?_⟩
  intro hd hp
  have e1 : distinctPeriods d tc vc ≤ (extractSeries d tc vc).length := by
    rw [distinctPeriods]
    calc ((extractSeries d tc vc).map Prod.fst).dedup.length
        ≤ ((extractSeries d tc vc).map Prod.fst).length :=
          ((extractSeries d tc vc).map Prod.fst).dedup_sublist.length_le
      _ = (extractSeries d tc vc).length := List.length_map _ _
  have e2 : (extractSeries d tc vc).length ≤ d.rows.length := by
    rw [extractSeries]
    exact List.length_filterMap_le _ _
  exact hfc (by omega) hp

/-- C1 (witness): the amended theorem applied to the 2-distinct-period,
4-row fixture yields a non-empty forecast. -/
theorem C1_witness : fcSeg (forecast_linear twoPeriodsFourRows "year" "sales" 5).1 ≠ [] :=
  (C1_amended_row_gate twoPeriodsFourRows "year" "sales" 5 (by decide) (by decide)).2.1
    (by decide) (by decide)

/-- C2 (counterexample): with exactly `D = 2` distinct periods carried by 3
rows, `forecast_polynomial(..., degree=2)` passes its gate (`len(data) <
degree+1` counts rows) and succeeds with a non-empty forecast and non-error
metrics — contradicting the claim that it fails on every dataset with
exactly D distinct periods. -/
theorem C2_counterexample :
    distinctPeriods twoPeriodsThreeRows "year" "sales" = 2 ∧
    fcSeg (forecast_polynomial twoPeriodsThreeRows "year" "sales" 5 2).1 ≠ [] ∧
    ((forecast_polynomial twoPeriodsThreeRows "year" "sales" 5 2).2.1).lookup "error" =
      none := by
  have hfit : forecast_polynomial twoPeriodsThreeRows "year" "sales" 5 2 =
      polyOut twoPeriodsThreeRows "year" "sales" 5 2 :=
    forecast_polynomial_fit _ _ _ _ _ (by decide) (by decide) (by decide)
  refine ⟨?_, ?_, ?_⟩
  · norm_num +decide [distinctPeriods, extractSeries, twoPeriodsThreeRows, getNum,
      List.lookup, List.dedup_cons_of_mem, List.dedup_cons_of_not_mem]
  · rw [hfit, fcSeg_polyOut]
    simp only [ne_eq, List.map_eq_nil_iff]
    exact futurePeriods_ne_nil _ 5 (by decide)
  · rw [hfit]
    exact lookup_error_polyOut _ _ _ _ _

/-- C2 (amended): the gate of `forecast_polynomial` counts rows: with fewer
than `degree+1` rows it returns the sentinel triple before any fitting; with
at least `degree+1` rows it proceeds and (for a positive horizon) returns a
non-empty forecast with non-error metrics; in particular `degree+1` distinct
periods still guarantee success. -/
theorem C2_amended_row_gate (d : DataFrame) (tc vc : String) (p : Int) (degree : Nat)
    (h1 : tc ∈ d.cols) (h2 : vc ∈ d.cols) :
    (d.rows.length < degree + 1 → forecast_polynomial d tc vc p degree =
      ([], [("error", MVal.s "Insufficient data for polynomial forecasting")], none)) ∧
    (degree + 1 ≤ d.rows.length →
      ((forecast_polynomial d tc vc p degree).2.1).lookup "error" = none ∧
      (1 ≤ p → fcSeg (forecast_polynomial d tc vc p degree).1 ≠ [])) ∧
    (distinctPeriods d tc vc = degree + 1 → 1 ≤ p →
      fcSeg (forecast_polynomial d tc vc p degree).1 ≠ []) := by
  have hsucc : ∀ (h3 : degree + 1 ≤ d.rows.length),
      ((forecast_polynomial d tc vc p degree).2.1).lookup "error" = none ∧
      (1 ≤ p → fcSeg (forecast_polynomial d tc vc p degree).1 ≠ []) := by
    intro h3
    rw [forecast_polynomial_fit d tc vc p degree h1 h2 h3]
    refine ⟨lookup_error_polyOut _ _ _ _ _, ?_⟩
    intro hp
    rw [fcSeg_polyOut]
    simp only [ne_eq, List.map_eq_nil_iff]
    exact futurePeriods_ne_nil _ p hp
  refine ⟨fun hlt => forecast_polynomial_insufficient d tc vc p degree
    (Or.inr (Or.inr hlt)), hsucc, ?_⟩
  intro hd hp
  have e1 : distinctPeriods d tc vc ≤ (extractSeries d tc vc).length := by
    rw [distinctPeriods]
    calc ((extractSeries d tc vc).map Prod.fst).dedup.length
        ≤ ((extractSeries d tc vc).map Prod.fst).length :=
          ((extractSeries d tc vc).map Prod.fst).dedup_sublist.length_le
      _ = (extractSeries d tc vc).length := List.length_map _ _
  have e2 : (extractSeries d tc vc).length ≤ d.rows.length := by
    rw [extractSeries]
    exact List.length_filterMap_le _ _
  exact (hsucc (by omega)).2 hp

/-- C2 (witness): the amended theorem applied to the 3-row fixture with
degree 2: the gate passes and the forecast is non-empty. -/
theorem C2_witness :
    fcSeg (forecast_polynomial twoPeriodsThreeRows "year" "sales" 5 2).1 ≠ [] :=
  ((C2_amended_row_gate twoPeriodsThreeRows "year" "sales" 5 2 (by decide)
    (by decide)).2.1 (by decide)).2 (by decide)

/-- C3: once the guard passes, the historical segment of both
`forecast_linear` and `forecast_polynomial` is exactly the aggregated input
series: its rows are the group-by-sum of the (period, value) pairs, its
periods are strictly ascending (hence one row per distinct period), they
cover exactly the distinct input periods, and each value is the sum of all
input rows sharing that period — untouched by fitting. -/
theorem C3_historical_passthrough (d : DataFrame) (tc vc : String) (p : Int) (degree : Nat)
    (h1 : tc ∈ d.cols) (h2 : vc ∈ d.cols) (h3 : 3 ≤ d.rows.length)
    (h4 : degree + 1 ≤ d.rows.length) :
    histSeg (forecast_linear d tc vc p).1 =
      (groupbySum (extractSeries d tc vc)).map (fun q => FRow.mk q.1 q.2 "historical") ∧
    histSeg (forecast_polynomial d tc vc p degree).1 =
      (groupbySum (extractSeries d tc vc)).map (fun q => FRow.mk q.1 q.2 "historical") ∧
    ((groupbySum (extractSeries d tc vc)).map Prod.fst).Pairwise (· < ·) ∧
    (∀ t : ℚ, t ∈ (groupbySum (extractSeries d tc vc)).map Prod.fst ↔
      t ∈ (extractSeries d tc vc).map Prod.fst) ∧
    (∀ t v : ℚ, (t, v) ∈ groupbySum (extractSeries d tc vc) →
      v = sumAt t (extractSeries d tc vc)) := by
  refine ⟨?_, ?_, groupbySum_keys_sorted _, fun t => mem_keys_groupbySum t _,
    fun t v h => val_eq_sumAt_of_mem_groupbySum t v _ h⟩
  · rw [forecast_linear_fit d tc vc p h1 h2 h3]
    exact histSeg_linOut d tc vc p
  · rw [forecast_polynomial_fit d tc vc p degree h1 h2 h4]
    exact histSeg_polyOut d tc vc p degree

/-- C3 (witness): on the fixture whose 2010 rows carry 30 and 70, the
historical segment aggregates them to 100. -/
theorem C3_witness :
    histSeg (forecast_linear duplicatePeriodRows "year" "sales" 5).1 =
      [FRow.mk 2010 100 "historical", FRow.mk 2011 5 "historical",
       FRow.mk 2012 7 "historical"] := by
  have h := C3_historical_passthrough duplicatePeriodRows "year" "sales" 5 2
    (by decide) (by decide) (by decide) (by decide)
  rw [h.1]
  have h1 : extractSeries duplicatePeriodRows "year" "sales" =
      [((2010 : ℚ), (30 : ℚ)), (2010, 70), (2011, 5), (2012, 7)] := by
    simp +decide [extractSeries, duplicatePeriodRows, getNum, List.lookup]
  rw [h1]
  norm_num [groupbySum, insertAdd]

/-- C4: for a positive horizon `N`, the forecast segment of
`forecast_linear` has exactly `N` rows whose periods are
`max(historical period) + 1 + i` for `i = 0, …, N-1` — contiguous, strictly
ascending, no duplicates, no gaps. -/
theorem C4_horizon_contiguity (d : DataFrame) (tc vc : String) (N : Int)
    (h1 : tc ∈ d.cols) (h2 : vc ∈ d.cols) (h3 : 3 ≤ d.rows.length) (_hN : 1 ≤ N) :
    (fcSeg (forecast_linear d tc vc N).1).length = N.toNat ∧
    (fcSeg (forecast_linear d tc vc N).1).map (fun r => r.period) =
      (List.range N.toNat).map (fun i : ℕ =>
        maxOf ((histSeg (forecast_linear d tc vc N).1).map (fun r => r.period)) + 1 +
          (i : ℚ)) ∧
    ((fcSeg (forecast_linear d tc vc N).1).map (fun r => r.period)).Pairwise (· < ·) := by
  rw [forecast_linear_fit d tc vc N h1 h2 h3, fcSeg_linOut, histSeg_linOut,
    map_period_histRows, map_period_futRows]
  refine ⟨?_, ?_, pairwise_futurePeriods _ N⟩
  · rw [List.length_map, length_futurePeriods]
  · rw [futurePeriods]

/-- C4 (witness): on the perfect series with horizon 5 the forecast segment
has exactly 5 rows. -/
theorem C4_witness :
    (fcSeg (forecast_linear perfectSeries "year" "sales" 5).1).length = (5 : Int).toNat :=
  (C4_horizon_contiguity perfectSeries "year" "sales" 5 (by decide) (by decide)
    (by decide) (by decide)).1

/-- C5: in `forecast_by_region` an entity with fewer than 3 rows contributes
zero output rows; if every entity has fewer than 3 rows the result is empty;
and an entity with at least 3 rows gets exactly its own independently
computed block, so skipped entities do not abort the call or affect other
entities' forecasts. -/
theorem C5_batch_skip (d : DataFrame) (rc tc vc : String) (p : Int) (m : String) :
    (∀ r : Cell, (regionRows d rc r).length < 3 →
      (forecast_by_region d rc tc vc p m).filter (fun row => decide (row.region = r)) =
        []) ∧
    ((∀ r ∈ regionsOf d rc, (regionRows d rc r).length < 3) →
      forecast_by_region d rc tc vc p m = []) ∧
    (∀ r : Cell, 3 ≤ (regionRows d rc r).length → rc ∈ d.cols → tc ∈ d.cols →
      vc ∈ d.cols →
      (forecast_by_region d rc tc vc p m).filter (fun row => decide (row.region = r)) =
        regionBlock d rc tc vc p m r) := by
  refine ⟨?_, ?_, ?_⟩
  · intro r hr
    refine List.filter_eq_nil_iff.mpr ?_
    intro row hrow
    have h3 := mem_forecast_by_region_inv d rc tc vc p m row hrow
    simp only [decide_eq_true_eq]
    intro e
    rw [e] at h3
    omega
  · intro hall
    by_cases hc : rc ∉ d.cols ∨ tc ∉ d.cols ∨ vc ∉ d.cols
    · exact forecast_by_region_missing d rc tc vc p m hc
    · push_neg at hc
      rw [forecast_by_region_present d rc tc vc p m hc.1 hc.2.1 hc.2.2]
      refine List.flatten_eq_nil_iff.mpr ?_
      intro l hl
      obtain ⟨reg, hreg, rfl⟩ := List.mem_map.mp hl
      exact regionBlock_skip d rc tc vc p m reg (hall reg hreg)
  · intro r h3 hrc htc hvc
    rw [forecast_by_region_present d rc tc vc p m hrc htc hvc]
    refine filter_region_flatten (regionsOf d rc) (regionBlock d rc tc vc p m) r
      (fun reg row hrow => region_of_mem_regionBlock d rc tc vc p m reg row hrow)
      (nodup_uniqueFirst _) (mem_regionsOf d rc r ?_)
    intro e
    rw [e] at h3
    simp at h3

/-- C5 (witness): on the two-region fixture the 2-year region "South"
contributes zero rows. -/
theorem C5_witness :
    (forecast_by_region twoRegionData "region" "year" "sales" 5 "linear").filter
      (fun row => decide (row.region = Cell.str "South")) = [] :=
  (C5_batch_skip twoRegionData "region" "year" "sales" 5 "linear").1
    (Cell.str "South") (by decide)

/-- C6: a missing time or target column makes `forecast_linear` and
`forecast_polynomial` return the empty forecast frame, a metrics mapping
whose single key is `error`, and no model; a missing entity, time or
target column makes `forecast_by_region` return the empty frame — in
particular when only the entity column is absent.  All three embeddings
are total functions of their input, so no exception is raised. -/
theorem C6_missing_column (d : DataFrame) (rc tc vc : String) (p : Int) (degree : Nat)
    (m : String) :
    (tc ∉ d.cols ∨ vc ∉ d.cols →
      forecast_linear d tc vc p =
        ([], [("error", MVal.s "Insufficient data for forecasting")], none) ∧
      forecast_polynomial d tc vc p degree =
        ([], [("error", MVal.s "Insufficient data for polynomial forecasting")], none)) ∧
    (rc ∉ d.cols ∨ tc ∉ d.cols ∨ vc ∉ d.cols →
      forecast_by_region d rc tc vc p m = []) := by
  refine ⟨fun h1 => ⟨forecast_linear_insufficient d tc vc p ?_,
    forecast_polynomial_insufficient d tc vc p degree ?_⟩,
    fun h2 => forecast_by_region_missing d rc tc vc p m h2⟩
  · tauto
  · tauto

/-- C6 (witness): the fixture lacking the `sales` column gets the sentinel
triple from `forecast_linear`, and `forecast_by_region` returns the empty
frame on a fixture where only the entity column `region` is absent (time
and target both present). -/
theorem C6_witness :
    forecast_linear missingColData "year" "sales" 5 =
      ([], [("error", MVal.s "Insufficient data for forecasting")], none) ∧
    forecast_by_region perfectSeries "region" "year" "sales" 5 "linear" = [] :=
  ⟨((C6_missing_column missingColData "region" "year" "sales" 5 2 "linear").1
      (by decide)).1,
   (C6_missing_column perfectSeries "region" "year" "sales" 5 2 "linear").2 (by decide)⟩

/-- C7 (counterexample): on the perfect series with `periods = 0` both
`forecast_linear` and `forecast_polynomial` raise sklearn's 0-sample
`ValueError` in `model.predict` (lines 49/119) instead of returning — so no
result, and in particular no historical segment and no empty forecast
segment, is ever produced, contradicting the claim. -/
theorem C7_counterexample :
    forecast_linear_checked perfectSeries "year" "sales" 0 =
      Except.error zeroSampleError ∧
    forecast_polynomial_checked perfectSeries "year" "sales" 0 2 =
      Except.error zeroSampleError :=
  ⟨forecast_linear_checked_raises perfectSeries "year" "sales" 0
      (by decide) (by decide) (by decide) (by decide),
   forecast_polynomial_checked_raises perfectSeries "year" "sales" 0 2
      (by decide) (by decide) (by decide) (by decide)⟩

/-- C7 (amended): once the guard passes, a non-positive `periods` argument
makes the `model.predict` call receive the empty `(0,1)` future-period
array and raise sklearn's 0-sample `ValueError` — the call returns nothing
at all, rather than an empty forecast segment with the historical data;
only a positive `periods` returns normally (with the full fit-and-assemble
result), for both `forecast_linear` and `forecast_polynomial`. -/
theorem C7_amended_raise (d : DataFrame) (tc vc : String) (p : Int) (degree : Nat)
    (h1 : tc ∈ d.cols) (h2 : vc ∈ d.cols) (h3 : 3 ≤ d.rows.length)
    (h4 : degree + 1 ≤ d.rows.length) :
    (p ≤ 0 →
      forecast_linear_checked d tc vc p = Except.error zeroSampleError ∧
      forecast_polynomial_checked d tc vc p degree = Except.error zeroSampleError) ∧
    (1 ≤ p →
      forecast_linear_checked d tc vc p = Except.ok (linOut d tc vc p) ∧
      forecast_polynomial_checked d tc vc p degree =
        Except.ok (polyOut d tc vc p degree)) :=
  ⟨fun hp => ⟨forecast_linear_checked_raises d tc vc p h1 h2 h3 hp,
    forecast_polynomial_checked_raises d tc vc p degree h1 h2 h4 hp⟩,
   fun hp => ⟨forecast_linear_checked_ok d tc vc p h1 h2 h3 hp,
    forecast_polynomial_checked_ok d tc vc p degree h1 h2 h4 hp⟩⟩

/-- C7 (witness): the amended theorem applied to the perfect series with
`periods = 0`: the linear call raises the 0-sample ValueError. -/
theorem C7_witness :
    forecast_linear_checked perfectSeries "year" "sales" 0 =
      Except.error zeroSampleError :=
  ((C7_amended_raise perfectSeries "year" "sales" 0 2 (by decide) (by decide)
    (by decide) (by decide)).1 (by decide)).1

/-- C8: the embedded `forecast_linear` and `forecast_polynomial` are pure
functions of the input series and arguments — identical inputs give
identical forecast frames, metrics and models; no randomness enters the
computation. -/
theorem C8_determinism (d₁ d₂ : DataFrame) (tc vc : String) (p : Int) (degree : Nat)
    (h : d₁ = d₂) :
    forecast_linear d₁ tc vc p = forecast_linear d₂ tc vc p ∧
    forecast_polynomial d₁ tc vc p degree = forecast_polynomial d₂ tc vc p degree := by
  subst h
  exact ⟨rfl, rfl⟩

/-- C8 (witness): two runs on the perfect series coincide. -/
theorem C8_witness :
    forecast_linear perfectSeries "year" "sales" 5 =
      forecast_linear perfectSeries "year" "sales" 5 :=
  (C8_determinism perfectSeries perfectSeries "year" "sales" 5 2 rfl).1

/-- C9: fitting `forecast_linear` on {(2010,100),(2011,200),(2012,300)}
yields coefficient 100, R² = 1, and forecast 400 for period 2013 (exact
rational arithmetic). -/
theorem C9_perfect_fit :
    ((forecast_linear perfectSeries "year" "sales" 5).2.1).lookup "coefficient" =
      some (MVal.q 100) ∧
    ((forecast_linear perfectSeries "year" "sales" 5).2.1).lookup "r2" =
      some (MVal.q 1) ∧
    (fcSeg (forecast_linear perfectSeries "year" "sales" 5).1).head? =
      some (FRow.mk 2013 400 "forecast") := by
  have h1 : extractSeries perfectSeries "year" "sales" =
      [((2010 : ℚ), (100 : ℚ)), (2011, 200), (2012, 300)] := by
    simp +decide [extractSeries, perfectSeries, getNum, List.lookup]
  have h2 : groupbySum [((2010 : ℚ), (100 : ℚ)), (2011, 200), (2012, 300)] =
      [(2010, 100), (2011, 200), (2012, 300)] := by
    norm_num [groupbySum, insertAdd]
  have h3 : linFit [((2010 : ℚ), (100 : ℚ)), (2011, 200), (2012, 300)] =
      ⟨100, -200900⟩ := by
    rw [linFit]
    norm_num [meanOf]
  have hfit : forecast_linear perfectSeries "year" "sales" 5 =
      linOut perfectSeries "year" "sales" 5 :=
    forecast_linear_fit _ _ _ _ (by decide) (by decide) (by decide)
  refine ⟨?_, ?_, ?_⟩
  · rw [hfit]
    simp only [linOut, h1, h2, h3]
    simp +decide [List.lookup]
  · rw [hfit]
    simp only [linOut, h1, h2, h3]
    norm_num +decide [List.lookup, mseOf, r2Of, r2Branch, meanOf, LinModel.predict]
  · rw [hfit, fcSeg_linOut, h1, h2, h3]
    have hmax : maxOf ([((2010 : ℚ), (100 : ℚ)), (2011, 200), (2012, 300)].map Prod.fst) =
        2012 := by
      norm_num [maxOf, max_def]
    rw [hmax, futurePeriods, show ((5 : Int).toNat) = 5 from rfl,
      show List.range 5 = [0, 1, 2, 3, 4] from by decide]
    norm_num [LinModel.predict]

/-- C10: the method dispatch of `forecast_by_region` compares for exact
(case-sensitive) equality with the string `polynomial`; every other method
value — e.g. `Polynomial` or `LINEAR` — silently selects linear regression
and never produces an error. -/
theorem C10_method_dispatch (d : DataFrame) (rc tc vc : String) (p : Int) (m : String)
    (hm : m ≠ "polynomial") :
    forecast_by_region d rc tc vc p m = forecast_by_region d rc tc vc p "linear" := by
  rw [forecast_by_region, forecast_by_region]
  by_cases hc : rc ∉ d.cols ∨ tc ∉ d.cols ∨ vc ∉ d.cols
  · rw [if_pos hc, if_pos hc]
  · rw [if_neg hc, if_neg hc]
    have hfun : regionBlock d rc tc vc p m = regionBlock d rc tc vc p "linear" :=
      funext (regionBlock_fallback d rc tc vc p m hm)
    rw [hfun]

/-- C10 (witness): the capitalised method name `Polynomial` falls back to
the linear branch on the two-region fixture. -/
theorem C10_witness :
    forecast_by_region twoRegionData "region" "year" "sales" 5 "Polynomial" =
      forecast_by_region twoRegionData "region" "year" "sales" 5 "linear" :=
  C10_method_dispatch twoRegionData "region" "year" "sales" 5 "Polynomial" (by decide)
